import Mathlib

/-!
Verification of the San Diego homelessness data service: a shallow embedding
of the aggregation builder (`src/pipeline/transform.py`) and the query layer
(`src/api/queries.py`), with theorems checking the natural-language
specification against the code.

Datasets that live in parquet files are modelled as Lean lists of records; a
file that may be absent is an `Option` of such a list (`none` = the file does
not exist on disk).  DuckDB raises an IO error when a referenced parquet file
is missing, and the Python code converts `NULL`-valued cells to exceptions at
the points where it applies `int(...)`; both are modelled with `Except`.
Whether `con.close()` was reached on a given control path is tracked by a
`Bool` paired with each query result.
-/

namespace SDH

/-- Loosely typed cell of a raw CSV column as loaded by DuckDB `read_csv`:
either an integer, a free-form string, or SQL NULL. -/
inductive RawVal where
  | int (n : Int)
  | str (s : String)
  | null
deriving DecidableEq, Repr

/-- Parse a string of decimal digits; `none` if empty or a non-digit occurs. -/
def parseDigits : List Char → Option Nat
  | [] => none
  | cs => cs.foldl (fun acc c =>
      match acc with
      | none => none
      | some n => if c.isDigit then some (n * 10 + (c.toNat - 48)) else none)
      (some 0)

/-- Parse an optional-sign integer literal, the shape `TRY_CAST ... AS INTEGER`
accepts for strings. -/
def parseIntStr (s : String) : Option Int :=
  match s.toList with
  | [] => none
  | c :: cs =>
    if c = Char.ofNat 45 then (parseDigits cs).map (fun n => -(n : Int))
    else (parseDigits (c :: cs)).map (fun n => (n : Int))

/-- Semantics of `TRY_CAST(x AS INTEGER)`: an integer passes through, NULL and
unparseable strings give NULL. -/
def tryCastInt : RawVal → Option Int
  | .int n => some n
  | .str s => parseIntStr s
  | .null => none

/-- Row of `data/raw/pit_counts.csv` as loaded into `raw_pit_counts`. -/
structure RawPitRow where
  year : RawVal
  total_homeless : RawVal
  sheltered : RawVal
  unsheltered : RawVal
  chronically_homeless : RawVal
  veterans : RawVal
  families_persons : RawVal
  youth_under25 : RawVal
  first_time_homeless : RawVal
deriving DecidableEq, Repr

/-- Row of `data/raw/pit_subpopulations.csv` as loaded into
`raw_pit_subpopulations`. -/
structure RawSubpopRow where
  year : RawVal
  group_name : String
  count : RawVal
deriving DecidableEq, Repr

/-- Row of `data/raw/pit_geography.csv` as loaded into `raw_pit_geography`. -/
structure RawGeoRow where
  year : RawVal
  region : String
  total : RawVal
  sheltered : RawVal
  unsheltered : RawVal
deriving DecidableEq, Repr

/-- Row of the external budget cross-reference parquet
(`dept_budget_trends.parquet`). -/
structure BudgetRow where
  dept_name : String
  fiscal_year : Int
  amount : ℚ
  budget_cycle : String
  revenue_or_expense : String
  source : String
deriving DecidableEq, Repr

/-- Row of `data/processed/pit_data.parquet` (output of `_export_processed`). -/
structure ProcessedRow where
  year : Int
  total_homeless : Option Int
  sheltered : Option Int
  unsheltered : Option Int
  chronically_homeless : Option Int
  veterans : Option Int
  families_persons : Option Int
  youth_under25 : Option Int
  first_time_homeless : Option Int
deriving DecidableEq, Repr

/-- Row of `data/aggregated/pit_trends.parquet`. -/
structure TrendRow where
  year : Int
  total : Option Int
  sheltered : Option Int
  unsheltered : Option Int
deriving DecidableEq, Repr

/-- Row of `data/aggregated/pit_subpopulations.parquet`. -/
structure SubpopRow where
  year : Int
  group_name : String
  count : Int
deriving DecidableEq, Repr

/-- Row of `data/aggregated/pit_geography.parquet`. -/
structure GeoRow where
  year : Int
  region : String
  total : Option Int
  sheltered : Option Int
  unsheltered : Option Int
deriving DecidableEq, Repr

/-- Row of `data/aggregated/homelessness_spending.parquet`. -/
structure SpendingRow where
  fiscal_year : Int
  amount : ℚ
deriving DecidableEq, Repr

/-! ### Aggregation builder (`src/pipeline/transform.py`) -/

/-- Comparator for `ORDER BY year` over processed rows. -/
def processedLE (a b : ProcessedRow) : Bool := a.year ≤ b.year

/-- Embedding of `_export_processed`: cast every column with `TRY_CAST`, drop
rows whose year does not cast, order by year. -/
def export_processed (raws : List RawPitRow) : List ProcessedRow :=
  (raws.filterMap fun r =>
    (tryCastInt r.year).map fun y =>
      { year := y
        total_homeless := tryCastInt r.total_homeless
        sheltered := tryCastInt r.sheltered
        unsheltered := tryCastInt r.unsheltered
        chronically_homeless := tryCastInt r.chronically_homeless
        veterans := tryCastInt r.veterans
        families_persons := tryCastInt r.families_persons
        youth_under25 := tryCastInt r.youth_under25
        first_time_homeless := tryCastInt r.first_time_homeless }).mergeSort
    processedLE

/-- Comparator for `ORDER BY year` over trend rows. -/
def trendLE (a b : TrendRow) : Bool := a.year ≤ b.year

/-- Embedding of aggregation 1 of `_build_aggregations` (pit_trends): cast
year/total/sheltered/unsheltered, keep only rows whose year casts, order by
year. -/
def buildTrends (raws : List RawPitRow) : List TrendRow :=
  (raws.filterMap fun r =>
    (tryCastInt r.year).map fun y =>
      { year := y
        total := tryCastInt r.total_homeless
        sheltered := tryCastInt r.sheltered
        unsheltered := tryCastInt r.unsheltered }).mergeSort trendLE

/-- Comparator for `ORDER BY year, group_name` over subpopulation rows. -/
def subpopLE (a b : SubpopRow) : Bool :=
  a.year < b.year ∨ (a.year = b.year ∧ a.group_name ≤ b.group_name)

/-- Embedding of aggregation 2 of `_build_aggregations` (pit_subpopulations):
keep only rows where both the year and the count cast to integers, order by
(year, group_name). -/
def buildSubpops (raws : List RawSubpopRow) : List SubpopRow :=
  (raws.filterMap fun r =>
    match tryCastInt r.year, tryCastInt r.count with
    | some y, some c => some { year := y, group_name := r.group_name, count := c }
    | _, _ => none).mergeSort subpopLE

/-- Comparator for `ORDER BY year, region` over geography rows. -/
def geoBuildLE (a b : GeoRow) : Bool :=
  a.year < b.year ∨ (a.year = b.year ∧ a.region ≤ b.region)

/-- Embedding of aggregation 3 of `_build_aggregations` (pit_geography): cast
year and the three counts, keep only rows whose year casts, order by
(year, region). -/
def buildGeo (raws : List RawGeoRow) : List GeoRow :=
  (raws.filterMap fun r =>
    (tryCastInt r.year).map fun y =>
      { year := y
        region := r.region
        total := tryCastInt r.total
        sheltered := tryCastInt r.sheltered
        unsheltered := tryCastInt r.unsheltered }).mergeSort geoBuildLE

/-- Filter of `_build_spending_crossref`: fixed department, adopted budget
cycle, expense rows, budget source. -/
def budgetRowSelected (r : BudgetRow) : Bool :=
  r.dept_name = "Homelessness Strategies & Solutions" ∧
    r.budget_cycle = "adopted" ∧
    r.revenue_or_expense = "Expense" ∧
    r.source = "budget"

/-- Embedding of the `GROUP BY fiscal_year / SUM(amount) / ORDER BY
fiscal_year` query of `_build_spending_crossref`, applied to the selected
budget rows. -/
def buildSpending (budget : List BudgetRow) : List SpendingRow :=
  let sel := budget.filter budgetRowSelected
  let years := ((sel.map fun r => r.fiscal_year).dedup).mergeSort fun a b => a ≤ b
  years.map fun fy =>
    { fiscal_year := fy
      amount := ((sel.filter fun r => r.fiscal_year = fy).map fun r => r.amount).sum }

/-- Build-time failure: a SQL query referenced a column that the (placeholder)
table does not have, which DuckDB reports as a binder error. -/
inductive BuildErr where
  | missingColumn (table : String) (col : String)
deriving DecidableEq, Repr

/-- The derived files under `data/aggregated` (plus the processed file), the
persistent state the builder overwrites. -/
structure AggState where
  pit_data : List ProcessedRow
  pit_trends : List TrendRow
  pit_subpopulations : List SubpopRow
  pit_geography : List GeoRow
  homelessness_spending : List SpendingRow
deriving DecidableEq, Repr

/-- Embedding of `transform`: each raw CSV argument is `none` when the file is
absent (in which case `_load_raw_tables` creates a placeholder table holding
only a `dummy` column, so the first aggregation query that references the real
columns fails with a binder error); the budget parquet argument is `none` when
that external file is absent (in which case `_build_spending_crossref` returns
early and the previous spending file is left untouched). -/
def transformModel (pit : Option (List RawPitRow))
    (sub : Option (List RawSubpopRow)) (geo : Option (List RawGeoRow))
    (budget : Option (List BudgetRow)) (s : AggState) :
    Except BuildErr AggState :=
  match pit with
  | none => .error (.missingColumn "raw_pit_counts" "year")
  | some p =>
    match sub with
    | none => .error (.missingColumn "raw_pit_subpopulations" "year")
    | some sb =>
      match geo with
      | none => .error (.missingColumn "raw_pit_geography" "year")
      | some g =>
        .ok
          { pit_data := export_processed p
            pit_trends := buildTrends p
            pit_subpopulations := buildSubpops sb
            pit_geography := buildGeo g
            homelessness_spending :=
              match budget with
              | none => s.homelessness_spending
              | some b => buildSpending b }

/-! ### Query layer (`src/api/queries.py`)

Each derived parquet file is passed to a query as `Option (List row)`:
`none` means the file is absent on disk, in which case DuckDB raises an IO
error ("no files found") the moment a query references it.  Each query
returns a pair: the `Except` outcome of the call, and a `Bool` that is `true`
exactly when the control path reached `con.close()`. -/

/-- Runtime failure a query function can raise. -/
inductive QErr where
  | ioError (file : String)
  | typeError
  | zeroDivisionError
deriving DecidableEq, Repr

/-- Result of `get_filter_options`. -/
structure FilterOptions where
  years : List Int
  regions : List String
deriving DecidableEq, Repr

/-- Result of `get_overview`. -/
structure Overview where
  year : Int
  total : Int
  sheltered : Int
  unsheltered : Int
  prior_year_total : Option Int
  yoy_change : Option Int
  yoy_pct : Option ℚ
deriving DecidableEq, Repr

/-- Integer rounding with ties to even, the rounding Python's built-in
`round` uses. -/
def roundHalfEven (q : ℚ) : Int :=
  let f : Int := ⌊q⌋
  if q - f < 1 / 2 then f
  else if (1 : ℚ) / 2 < q - f then f + 1
  else if f % 2 = 0 then f else f + 1

/-- The value of Python's `round(q, 1)`. -/
def round1 (q : ℚ) : ℚ := (roundHalfEven (q * 10) : ℚ) / 10

/-- Semantics of `SELECT DISTINCT year ... WHERE year IS NOT NULL ORDER BY
year` over pit_trends (year is never NULL in the derived file), followed by
Python's `sorted`. -/
def distinctYears (t : List TrendRow) : List Int :=
  ((t.map fun r => r.year).dedup).mergeSort fun a b => a ≤ b

/-- Semantics of `SELECT DISTINCT region ... WHERE region IS NOT NULL ORDER BY
region` over pit_geography. -/
def distinctRegions (g : List GeoRow) : List String :=
  ((g.map fun r => r.region).dedup).mergeSort fun a b => a ≤ b

/-- Embedding of `get_filter_options`: the years query runs unguarded against
pit_trends; the regions query is wrapped in `try/except` with `regions = []`
as the fallback. -/
def get_filter_options (trends : Option (List TrendRow))
    (geo : Option (List GeoRow)) : Except QErr FilterOptions × Bool :=
  match trends with
  | none => (.error (.ioError "pit_trends.parquet"), false)
  | some t =>
    let regions : List String :=
      match geo with
      | none => []
      | some g => distinctRegions g
    (.ok { years := distinctYears t, regions := regions }, true)

/-- The value of `SELECT MAX(year)` over a list of trend rows: NULL (`none`)
when the table is empty. -/
def maxYearT (t : List TrendRow) : Option Int := (t.map fun r => r.year).max?

/-- The value of `SELECT MAX(year)` over a list of geography rows. -/
def maxYearG (g : List GeoRow) : Option Int := (g.map fun r => r.year).max?

/-- Embedding of `get_overview`.  With `year? = none` the code first runs
`SELECT MAX(year)`; an empty table makes that NULL and the subsequent
`int(year)` raises before `con.close()`.  `fetchone` of the `WHERE year = y`
queries is `List.find?`.  `con.close()` runs right after the two reads, so
the later `int(...)` type errors and the division by zero happen with the
connection already closed. -/
def get_overview (trends : Option (List TrendRow)) (year? : Option Int) :
    Except QErr Overview × Bool :=
  match trends with
  | none => (.error (.ioError "pit_trends.parquet"), false)
  | some t =>
    let yearOpt : Option Int :=
      match year? with
      | some y => some y
      | none => maxYearT t
    match yearOpt with
    | none => (.error .typeError, false)
    | some y =>
      let current := t.find? fun r => r.year == y
      let prior := t.find? fun r => r.year == y - 1
      match current with
      | none =>
        (.ok { year := y, total := 0, sheltered := 0, unsheltered := 0
               prior_year_total := none, yoy_change := none, yoy_pct := none },
         true)
      | some c =>
        match c.total, c.sheltered, c.unsheltered with
        | some total, some sh, some un =>
          match prior with
          | none =>
            (.ok { year := y, total := total, sheltered := sh
                   unsheltered := un, prior_year_total := none
                   yoy_change := none, yoy_pct := none }, true)
          | some p =>
            match p.total with
            | none => (.error .typeError, true)
            | some pt =>
              if pt = 0 then (.error .zeroDivisionError, true)
              else
                (.ok { year := y, total := total, sheltered := sh
                       unsheltered := un, prior_year_total := some pt
                       yoy_change := some (total - pt)
                       yoy_pct :=
                         some (round1 (((total : ℚ) - (pt : ℚ)) / (pt : ℚ) * 100)) },
                 true)
        | _, _, _ => (.error .typeError, true)

/-- Embedding of `get_pit_trends`: inclusive year-range filter, ordered by
year ascending, executed through `_run` (no guard around the read). -/
def get_pit_trends (trends : Option (List TrendRow))
    (year_min year_max : Int) : Except QErr (List TrendRow) × Bool :=
  match trends with
  | none => (.error (.ioError "pit_trends.parquet"), false)
  | some t =>
    (.ok ((t.filter fun r => year_min ≤ r.year ∧ r.year ≤ year_max).mergeSort
      trendLE), true)

/-- Comparator for `ORDER BY year, group_name` in the subpopulations query. -/
def subpopQueryLE (a b : SubpopRow) : Bool := subpopLE a b

/-- Embedding of `get_subpopulations`: year range plus optional exact
group-name filter (`if group:` means an empty string behaves as no filter),
ordered by (year, group_name). -/
def get_subpopulations (subs : Option (List SubpopRow))
    (year_min year_max : Int) (group : Option String) :
    Except QErr (List SubpopRow) × Bool :=
  match subs with
  | none => (.error (.ioError "pit_subpopulations.parquet"), false)
  | some s =>
    let keep : SubpopRow → Bool := fun r =>
      decide (year_min ≤ r.year) && decide (r.year ≤ year_max) &&
        match group with
        | none => true
        | some gname => gname == "" || r.group_name == gname
    (.ok ((s.filter keep).mergeSort subpopQueryLE), true)

/-- Comparator for `ORDER BY total DESC` (DuckDB default puts NULLs last). -/
def geoDescLE (a b : GeoRow) : Bool :=
  match a.total, b.total with
  | some x, some y => y ≤ x
  | some _, none => true
  | none, some _ => false
  | none, none => true

/-- Embedding of `get_geography`: default year is `SELECT MAX(year)` over
pit_geography (NULL on an empty table makes the later `int(year)` raise
before `con.close()`); optional exact region filter (`if region:` — an empty
string behaves as no filter); ordered by total descending. -/
def get_geography (geo : Option (List GeoRow)) (year? : Option Int)
    (region : Option String) : Except QErr (List GeoRow) × Bool :=
  match geo with
  | none => (.error (.ioError "pit_geography.parquet"), false)
  | some g =>
    let yearOpt : Option Int :=
      match year? with
      | some y => some y
      | none => maxYearG g
    match yearOpt with
    | none => (.error .typeError, false)
    | some y =>
      let keep : GeoRow → Bool := fun r =>
        r.year == y &&
          match region with
          | none => true
          | some rg => rg == "" || r.region == rg
      (.ok ((g.filter keep).mergeSort geoDescLE), true)

/-- Comparator for `ORDER BY fiscal_year` in the spending query. -/
def spendLE (a b : SpendingRow) : Bool := a.fiscal_year ≤ b.fiscal_year

/-- Embedding of `get_spending_trends`: inclusive fiscal-year range filter,
ordered by fiscal year ascending, executed through `_run` (no guard around
the read). -/
def get_spending_trends (sp : Option (List SpendingRow))
    (fy_min fy_max : Int) : Except QErr (List SpendingRow) × Bool :=
  match sp with
  | none => (.error (.ioError "homelessness_spending.parquet"), false)
  | some s =>
    (.ok ((s.filter fun r => fy_min ≤ r.fiscal_year ∧ r.fiscal_year ≤ fy_max).mergeSort
      spendLE), true)

/-! ### Sample datasets used to instantiate theorems on concrete inputs -/

/-- Sample trend dataset with consecutive years and nonzero totals. -/
def demoTrends : List TrendRow :=
  [ { year := 2023, total := some 10000, sheltered := some 4000, unsheltered := some 6000 },
    { year := 2024, total := some 10600, sheltered := some 4300, unsheltered := some 6300 } ]

/-- Sample trend dataset whose prior year has a zero total. -/
def demoTrendsZero : List TrendRow :=
  [ { year := 2023, total := some 0, sheltered := some 0, unsheltered := some 0 },
    { year := 2024, total := some 5, sheltered := some 2, unsheltered := some 3 } ]

/-- Sample geography dataset. -/
def demoGeo : List GeoRow :=
  [ { year := 2024, region := "Downtown", total := some 300, sheltered := some 100,
      unsheltered := some 200 },
    { year := 2024, region := "North", total := some 120, sheltered := some 50,
      unsheltered := some 70 } ]

/-- Sample raw PIT row whose year does not cast to an integer. -/
def demoBadYearRow : RawPitRow :=
  { year := .str "unknown", total_homeless := .int 10, sheltered := .int 4,
    unsheltered := .int 6, chronically_homeless := .null, veterans := .null,
    families_persons := .null, youth_under25 := .null, first_time_homeless := .null }

/-- Sample raw PIT row with a good year and a non-castable total. -/
def demoBadTotalRow : RawPitRow :=
  { year := .int 2020, total_homeless := .str "n/a", sheltered := .int 4,
    unsheltered := .int 6, chronically_homeless := .null, veterans := .null,
    families_persons := .null, youth_under25 := .null, first_time_homeless := .null }

/-- Sample raw subpopulation row with a good year and a non-castable count. -/
def demoBadCountRow : RawSubpopRow :=
  { year := .int 2020, group_name := "Veterans", count := .str "n/a" }

/-- Sample raw geography row whose year does not cast. -/
def demoBadYearGeoRow : RawGeoRow :=
  { year := .null, region := "Downtown", total := .int 300, sheltered := .int 100,
    unsheltered := .int 200 }

/-- The empty derived state, used as the initial state of builder runs. -/
def emptyAgg : AggState :=
  { pit_data := [], pit_trends := [], pit_subpopulations := [],
    pit_geography := [], homelessness_spending := [] }

/-! ### Helper lemmas about the comparators -/

theorem spendLE_trans (a b c : SpendingRow) :
    spendLE a b → spendLE b c → spendLE a c := by
  simp only [spendLE, decide_eq_true_eq]
  omega

theorem spendLE_total (a b : SpendingRow) : spendLE a b || spendLE b a := by
  simp only [spendLE, Bool.or_eq_true, decide_eq_true_eq]
  omega

theorem geoDescLE_trans (a b c : GeoRow) :
    geoDescLE a b → geoDescLE b c → geoDescLE a c := by
  cases ha : a.total <;> cases hb : b.total <;> cases hc : c.total <;>
    (simp_all [geoDescLE]; try omega)

theorem geoDescLE_total (a b : GeoRow) : geoDescLE a b || geoDescLE b a := by
  cases ha : a.total <;> cases hb : b.total <;>
    (simp_all [geoDescLE]; try omega)

/-! ### Theorems for the claims -/

/-- C1, counterexample: querying the filter options while
`pit_trends.parquet` is absent is a fatal IO error, not an empty result, so
the query layer does have a fatal runtime error on a missing derived
dataset. -/
theorem C1_counterexample :
    get_filter_options none (some []) =
      (.error (.ioError "pit_trends.parquet"), false) := rfl

/-- C1, amended: a missing derived dataset is a fatal IO error for every
query operation that reads it (overview, trends, subpopulations, geography,
spending, and the years read of filter options); the single exception is the
regions read inside `get_filter_options`, which is guarded by a handler and
falls back to an empty region list while the years are still returned. -/
theorem C1_amended (t : List TrendRow) (g : List GeoRow) (y : Option Int)
    (a b : Int) (gr rg : Option String) :
    get_filter_options (some t) none =
      (.ok { years := distinctYears t, regions := [] }, true) ∧
    get_filter_options (some t) (some g) =
      (.ok { years := distinctYears t, regions := distinctRegions g }, true) ∧
    get_overview none y = (.error (.ioError "pit_trends.parquet"), false) ∧
    get_pit_trends none a b = (.error (.ioError "pit_trends.parquet"), false) ∧
    get_subpopulations none a b gr =
      (.error (.ioError "pit_subpopulations.parquet"), false) ∧
    get_geography none y rg = (.error (.ioError "pit_geography.parquet"), false) ∧
    get_spending_trends none a b =
      (.error (.ioError "homelessness_spending.parquet"), false) :=
  ⟨rfl, rfl, rfl, rfl, rfl, rfl, rfl⟩

/-- C3: asking for an explicitly supplied year that has no record in the
trend dataset returns the zero-filled sentinel with null comparison fields
and completes normally (connection closed, no exception). -/
theorem C3_absent_year_sentinel (t : List TrendRow) (y : Int)
    (h : ∀ r ∈ t, r.year ≠ y) :
    get_overview (some t) (some y) =
      (.ok { year := y, total := 0, sheltered := 0, unsheltered := 0,
             prior_year_total := none, yoy_change := none, yoy_pct := none },
       true) := by
  have hf : t.find? (fun r => r.year == y) = none := by
    rw [List.find?_eq_none]
    intro r hr
    simpa using h r hr
  simp [get_overview, hf]

/-- C3, witness: the sentinel on the sample dataset at a year it lacks. -/
theorem C3_witness :
    get_overview (some demoTrends) (some 1999) =
      (.ok { year := 1999, total := 0, sheltered := 0, unsheltered := 0,
             prior_year_total := none, yoy_change := none, yoy_pct := none },
       true) :=
  C3_absent_year_sentinel demoTrends 1999 (by decide)

/-- C5: with `pit_counts.csv` absent, `_load_raw_tables` installs a
placeholder table holding only a `dummy` column, so the very next query
(`_export_processed`) references the missing `year` column and the whole run
aborts with a binder error — the build does not continue to produce empty
datasets. -/
theorem C5_missing_source_aborts :
    transformModel none (some []) (some []) none emptyAgg =
      .error (.missingColumn "raw_pit_counts" "year") := rfl

/-- C9: running the builder a second time on the same raw inputs (with the
same availability of the external budget parquet) reproduces exactly the
derived state the first run produced, because every derived file is rewritten
wholesale from the raw inputs alone and the spending file, when the budget
parquet is absent, is left untouched by both runs. -/
theorem C9_idempotent (p : List RawPitRow) (sb : List RawSubpopRow)
    (g : List RawGeoRow) (budget : Option (List BudgetRow)) (s s2 : AggState)
    (h : transformModel (some p) (some sb) (some g) budget s = .ok s2) :
    transformModel (some p) (some sb) (some g) budget s2 = .ok s2 := by
  cases budget with
  | none =>
    simp only [transformModel, Except.ok.injEq] at h
    subst h
    simp [transformModel]
  | some bdg =>
    simp only [transformModel, Except.ok.injEq] at h
    subst h
    simp [transformModel]

/-- C9, witness: two runs on empty raw sources agree. -/
theorem C9_witness :
    transformModel (some []) (some []) (some []) none emptyAgg = .ok emptyAgg :=
  C9_idempotent [] [] [] none emptyAgg emptyAgg
    (by simp [transformModel, emptyAgg, export_processed, buildTrends,
          buildSubpops, buildGeo])

/-- C2: when the trend dataset carries records for both the requested year
and the prior year with integer totals T and Tp, the overview reports
`yoy_change = T - Tp` and `yoy_pct = round((T - Tp) / Tp * 100, 1)` (the
formula presupposes Tp is nonzero, the divisor of the expression); when no
record for the prior year exists, the three comparison fields are null. -/
theorem C2_yoy_fields (t : List TrendRow) (y : Int) (c : TrendRow)
    (T sh un : Int)
    (hc : t.find? (fun r => r.year == y) = some c)
    (hT : c.total = some T) (hs : c.sheltered = some sh)
    (hu : c.unsheltered = some un) :
    (∀ p Tp, t.find? (fun r => r.year == y - 1) = some p →
      p.total = some Tp → Tp ≠ 0 →
      get_overview (some t) (some y) =
        (.ok { year := y, total := T, sheltered := sh, unsheltered := un,
               prior_year_total := some Tp, yoy_change := some (T - Tp),
               yoy_pct := some (round1 (((T : ℚ) - (Tp : ℚ)) / (Tp : ℚ) * 100)) },
         true)) ∧
    (t.find? (fun r => r.year == y - 1) = none →
      get_overview (some t) (some y) =
        (.ok { year := y, total := T, sheltered := sh, unsheltered := un,
               prior_year_total := none, yoy_change := none, yoy_pct := none },
         true)) := by
  constructor
  · intro p Tp hp hpT hne
    simp [get_overview, hc, hp, hT, hs, hu, hpT, hne]
  · intro hp
    simp [get_overview, hc, hp, hT, hs, hu]

/-- C2, witness: on the sample dataset, 2024 against 2023 gives change 600
and a 6.0 percent year-over-year figure. -/
theorem C2_witness :
    get_overview (some demoTrends) (some 2024) =
      (.ok { year := 2024, total := 10600, sheltered := 4300,
             unsheltered := 6300, prior_year_total := some 10000,
             yoy_change := some 600,
             yoy_pct := some (round1 (((10600 : ℚ) - (10000 : ℚ)) / (10000 : ℚ) * 100)) },
       true) :=
  (C2_yoy_fields demoTrends 2024
      { year := 2024, total := some 10600, sheltered := some 4300,
        unsheltered := some 6300 }
      10600 4300 6300 (by decide) rfl rfl rfl).1
    { year := 2023, total := some 10000, sheltered := some 4000,
      unsheltered := some 6000 }
    10000 (by decide) rfl (by decide)

/-- C10: with records present for the requested year and the prior year
(integer-valued fields), the overview succeeds exactly when the prior total
is nonzero, and a prior total of zero raises a division-by-zero error rather
than returning a null percentage. -/
theorem C10_unguarded_division (t : List TrendRow) (y : Int) (c p : TrendRow)
    (T sh un Tp : Int)
    (hc : t.find? (fun r => r.year == y) = some c)
    (hT : c.total = some T) (hs : c.sheltered = some sh)
    (hu : c.unsheltered = some un)
    (hp : t.find? (fun r => r.year == y - 1) = some p)
    (hpT : p.total = some Tp) :
    ((get_overview (some t) (some y)).1.isOk = true ↔ Tp ≠ 0) ∧
    (Tp = 0 → (get_overview (some t) (some y)).1 = .error .zeroDivisionError) := by
  by_cases h0 : Tp = 0
  · subst h0
    simp [get_overview, hc, hp, hT, hs, hu, hpT, Except.isOk, Except.toBool]
  · simp [get_overview, hc, hp, hT, hs, hu, hpT, h0, Except.isOk, Except.toBool]

/-- C10, witness: a prior year with total zero makes the overview fail with
the division-by-zero error. -/
theorem C10_witness :
    (get_overview (some demoTrendsZero) (some 2024)).1 =
      .error .zeroDivisionError :=
  (C10_unguarded_division demoTrendsZero 2024
      { year := 2024, total := some 5, sheltered := some 2, unsheltered := some 3 }
      { year := 2023, total := some 0, sheltered := some 0, unsheltered := some 0 }
      5 2 3 0 (by decide) rfl rfl rfl (by decide) rfl).2 rfl

/-- C4, counterexample: a raw subpopulation row with a castable year and a
non-castable count is dropped from the derived dataset entirely — the output
is empty — rather than kept with a null count as the claim states. -/
theorem C4_counterexample : buildSubpops [demoBadCountRow] = [] := by
  have hf : List.filterMap (fun r =>
      match tryCastInt r.year, tryCastInt r.count with
      | some y, some c => some { year := y, group_name := r.group_name, count := c }
      | _, _ => none) [demoBadCountRow] = ([] : List SubpopRow) := rfl
  unfold buildSubpops
  rw [hf, List.mergeSort_nil]

/-- C4, amended: a raw row whose year fails to cast is dropped from every
derived dataset; a PIT or geography row whose other metrics fail to cast is
kept with those metrics null; but a subpopulation row whose count fails to
cast is dropped entirely, not kept with a null count. -/
theorem C4_amended (l1 l2 : List RawPitRow) (r : RawPitRow)
    (g1 g2 : List RawGeoRow) (gr : RawGeoRow)
    (s1 s2 : List RawSubpopRow) (sr : RawSubpopRow) :
    (tryCastInt r.year = none →
      buildTrends (l1 ++ r :: l2) = buildTrends (l1 ++ l2) ∧
      export_processed (l1 ++ r :: l2) = export_processed (l1 ++ l2)) ∧
    (tryCastInt gr.year = none →
      buildGeo (g1 ++ gr :: g2) = buildGeo (g1 ++ g2)) ∧
    (tryCastInt sr.year = none →
      buildSubpops (s1 ++ sr :: s2) = buildSubpops (s1 ++ s2)) ∧
    (∀ y, tryCastInt r.year = some y →
      ({ year := y, total := tryCastInt r.total_homeless,
         sheltered := tryCastInt r.sheltered,
         unsheltered := tryCastInt r.unsheltered } : TrendRow)
        ∈ buildTrends (l1 ++ r :: l2)) ∧
    (∀ y, tryCastInt gr.year = some y →
      ({ year := y, region := gr.region, total := tryCastInt gr.total,
         sheltered := tryCastInt gr.sheltered,
         unsheltered := tryCastInt gr.unsheltered } : GeoRow)
        ∈ buildGeo (g1 ++ gr :: g2)) ∧
    (tryCastInt sr.count = none →
      buildSubpops (s1 ++ sr :: s2) = buildSubpops (s1 ++ s2)) := by
  refine ⟨?_, ?_, ?_, ?_, ?_, ?_⟩
  · intro h
    constructor
    · unfold buildTrends
      congr 1
      simp [List.filterMap_append, List.filterMap_cons, h]
    · unfold export_processed
      congr 1
      simp [List.filterMap_append, List.filterMap_cons, h]
  · intro h
    unfold buildGeo
    congr 1
    simp [List.filterMap_append, List.filterMap_cons, h]
  · intro h
    unfold buildSubpops
    congr 1
    simp [List.filterMap_append, List.filterMap_cons, h]
  · intro y hy
    unfold buildTrends
    rw [List.mem_mergeSort]
    exact List.mem_filterMap.mpr
      ⟨r, by simp, by simp [hy]⟩
  · intro y hy
    unfold buildGeo
    rw [List.mem_mergeSort]
    exact List.mem_filterMap.mpr
      ⟨gr, by simp, by simp [hy]⟩
  · intro h
    unfold buildSubpops
    congr 1
    cases hy : tryCastInt sr.year <;>
      simp [List.filterMap_append, List.filterMap_cons, h, hy]

/-- C4, witness: concrete rows exercising the drop and null policies. -/
theorem C4_witness :
    (buildTrends ([] ++ demoBadYearRow :: []) = buildTrends ([] ++ []) ∧
     export_processed ([] ++ demoBadYearRow :: []) = export_processed ([] ++ [])) ∧
    (({ year := 2020, total := none, sheltered := some 4, unsheltered := some 6 } :
        TrendRow) ∈ buildTrends ([] ++ demoBadTotalRow :: [])) ∧
    buildSubpops ([] ++ demoBadCountRow :: []) = buildSubpops ([] ++ []) :=
  ⟨(C4_amended [] [] demoBadYearRow [] [] demoBadYearGeoRow
      [] [] demoBadCountRow).1 rfl,
   (C4_amended [] [] demoBadTotalRow [] [] demoBadYearGeoRow
      [] [] demoBadCountRow).2.2.2.1 2020 rfl,
   (C4_amended [] [] demoBadYearRow [] [] demoBadYearGeoRow
      [] [] demoBadCountRow).2.2.2.2.2 rfl⟩

/-- C6, counterexample: when the spending dataset was never produced, the
spending query raises an IO error instead of returning an empty collection. -/
theorem C6_counterexample :
    (get_spending_trends none 2021 2026).1 =
      .error (.ioError "homelessness_spending.parquet") := rfl

/-- C6, amended: with the spending dataset present, the query returns exactly
the records whose fiscal year lies in the inclusive range, ordered ascending
by fiscal year; with the dataset never produced, it fails with an IO error
(and does not reach the close). -/
theorem C6_amended (s : List SpendingRow) (a b : Int) :
    (∃ out, get_spending_trends (some s) a b = (.ok out, true) ∧
      out.Perm (s.filter fun r => a ≤ r.fiscal_year ∧ r.fiscal_year ≤ b) ∧
      out.Pairwise fun u v => u.fiscal_year ≤ v.fiscal_year) ∧
    get_spending_trends none a b =
      (.error (.ioError "homelessness_spending.parquet"), false) := by
  refine ⟨⟨_, rfl, List.mergeSort_perm _ _, ?_⟩, rfl⟩
  have hs := List.sorted_mergeSort spendLE_trans spendLE_total
    (s.filter fun r => a ≤ r.fiscal_year ∧ r.fiscal_year ≤ b)
  exact hs.imp fun hab => by simpa [spendLE] using hab

/-- C7, counterexample: with the geography dataset absent, the geography
query raises an IO error instead of returning an empty collection. -/
theorem C7_counterexample :
    (get_geography none (some 2024) none).1 =
      .error (.ioError "pit_geography.parquet") := rfl

/-- C7, amended: with the geography dataset present, a `none` year defaults
to the maximum year of the dataset, results are sorted by total descending
(NULLs last), a nonempty exact region filter restricts the result to that
region and year, and a year with no rows yields the empty collection; with
the dataset absent, the query fails with an IO error. -/
theorem C7_amended (g : List GeoRow) (m y : Int) (rg : String)
    (region : Option String) :
    (maxYearG g = some m →
      get_geography (some g) none region = get_geography (some g) (some m) region) ∧
    (∀ out, get_geography (some g) (some y) region = (.ok out, true) →
      out.Pairwise fun u v => geoDescLE u v) ∧
    (rg ≠ "" → ∀ out, get_geography (some g) (some y) (some rg) = (.ok out, true) →
      ∀ r ∈ out, r.year = y ∧ r.region = rg) ∧
    ((∀ r ∈ g, r.year ≠ y) →
      get_geography (some g) (some y) region = (.ok [], true)) ∧
    get_geography none (some y) region =
      (.error (.ioError "pit_geography.parquet"), false) := by
  refine ⟨?_, ?_, ?_, ?_, rfl⟩
  · intro hm
    simp [get_geography, hm]
  · intro out hout
    simp only [get_geography, Prod.mk.injEq, Except.ok.injEq] at hout
    rw [← hout.1]
    exact List.sorted_mergeSort geoDescLE_trans geoDescLE_total _
  · intro hrg out hout r hr
    simp only [get_geography, Prod.mk.injEq, Except.ok.injEq] at hout
    rw [← hout.1] at hr
    rw [List.mem_mergeSort, List.mem_filter] at hr
    have hk := hr.2
    simp only [Bool.and_eq_true, beq_iff_eq, Bool.or_eq_true] at hk
    refine ⟨hk.1, ?_⟩
    rcases hk.2 with he | hr2
    · exact absurd he hrg
    · exact hr2
  · intro h
    have hf : (g.filter fun r =>
        r.year == y &&
          match region with
          | none => true
          | some rgn => rgn == "" || r.region == rgn) = [] := by
      rw [List.filter_eq_nil_iff]
      intro r hr
      simp [h r hr]
    simp [get_geography, hf]

/-- C7, witness: the amended facts on the sample geography dataset. -/
theorem C7_witness :
    (get_geography (some demoGeo) none none =
      get_geography (some demoGeo) (some 2024) none) ∧
    (∀ r ∈ [({ year := 2024, region := "North", total := some 120,
               sheltered := some 50, unsheltered := some 70 } : GeoRow)],
      r.year = 2024 ∧ r.region = "North") ∧
    get_geography (some demoGeo) (some 1999) none = (.ok [], true) :=
  ⟨(C7_amended demoGeo 2024 2024 "North" none).1 (by decide),
   (C7_amended demoGeo 2024 2024 "North" none).2.2.1 (by decide)
     [{ year := 2024, region := "North", total := some 120,
        sheltered := some 50, unsheltered := some 70 }]
     (by simp [get_geography, demoGeo]),
   (C7_amended demoGeo 2024 1999 "North" none).2.2.2.1 (by decide)⟩

/-! ### Close-on-success lemmas used for the resource claim -/

theorem overview_close_aux (t : Option (List TrendRow)) (y : Option Int)
    (res : Except QErr Overview) (closed : Bool)
    (heq : get_overview t y = (res, closed)) (hok : res.isOk = true) :
    closed = true := by
  unfold get_overview at heq
  repeat' (first | split at heq | dsimp only at heq)
  all_goals
    (injection heq with e1 e2; subst e1; subst e2;
     simp [Except.isOk, Except.toBool] at hok ⊢)

theorem geography_close_aux (g : Option (List GeoRow)) (y : Option Int)
    (region : Option String) (res : Except QErr (List GeoRow)) (closed : Bool)
    (heq : get_geography g y region = (res, closed)) (hok : res.isOk = true) :
    closed = true := by
  unfold get_geography at heq
  repeat' (first | split at heq | dsimp only at heq)
  all_goals
    (injection heq with e1 e2; subst e1; subst e2;
     simp [Except.isOk, Except.toBool] at hok ⊢)

/-- C8, counterexample: when the trend parquet is absent, the read inside
`get_pit_trends` raises before `con.close()` is reached, so the connection is
not released on that exit path. -/
theorem C8_counterexample :
    get_pit_trends none 2011 2024 =
      (.error (.ioError "pit_trends.parquet"), false) := rfl

/-- C8, amended: every query operation opens its own connection and, on every
exit path that returns a result (and, in the overview and geography
operations, also on the post-read type and division errors), the connection
is closed; but an error raised by the underlying read itself skips the
close, leaving the connection to the garbage collector. -/
theorem C8_amended (t : Option (List TrendRow)) (g : Option (List GeoRow))
    (sub : Option (List SubpopRow)) (sp : Option (List SpendingRow))
    (y : Option Int) (a b : Int) (gr rg : Option String) :
    ((get_filter_options t g).1.isOk = true → (get_filter_options t g).2 = true) ∧
    ((get_overview t y).1.isOk = true → (get_overview t y).2 = true) ∧
    ((get_pit_trends t a b).1.isOk = true → (get_pit_trends t a b).2 = true) ∧
    ((get_subpopulations sub a b gr).1.isOk = true →
      (get_subpopulations sub a b gr).2 = true) ∧
    ((get_geography g y rg).1.isOk = true → (get_geography g y rg).2 = true) ∧
    ((get_spending_trends sp a b).1.isOk = true →
      (get_spending_trends sp a b).2 = true) := by
  refine ⟨?_, ?_, ?_, ?_, ?_, ?_⟩
  · cases t <;> simp [get_filter_options, Except.isOk, Except.toBool]
  · exact fun h => overview_close_aux t y _ _ rfl h
  · cases t <;> simp [get_pit_trends, Except.isOk, Except.toBool]
  · cases sub <;> simp [get_subpopulations, Except.isOk, Except.toBool]
  · exact fun h => geography_close_aux g y rg _ _ rfl h
  · cases sp <;> simp [get_spending_trends, Except.isOk, Except.toBool]

/-- C8, witness: on present (empty) datasets all six operations succeed and
reach the close. -/
theorem C8_witness :
    (get_filter_options (some []) none).2 = true ∧
    (get_overview (some []) (some 2024)).2 = true ∧
    (get_pit_trends (some []) 2011 2024).2 = true ∧
    (get_subpopulations (some []) 2011 2024 none).2 = true ∧
    (get_geography (some []) (some 2024) none).2 = true ∧
    (get_spending_trends (some []) 2011 2024).2 = true := by
  have h := C8_amended (some []) (some []) (some []) (some [])
    (some 2024) 2011 2024 none none
  exact ⟨h.1 (by rfl), h.2.1 (by rfl), h.2.2.1 (by rfl), h.2.2.2.1 (by rfl),
    h.2.2.2.2.1 (by rfl), h.2.2.2.2.2 (by rfl)⟩

end SDH
